import Mathlib

/-!
# TerminalBot — supervised command execution subsystem: formal model

A shallow embedding of the two core modules of the TerminalBot repository:

* `src/terminalbot/executor/command.py` — `CommandResult`, `CommandExecutor.execute`
* `src/terminalbot/agent/safety.py` — `SafetyValidator`
* `src/terminalbot/config/settings.py` — the default `SafetyConfig` / `ExecutionConfig`

Strings are modelled as `List Char` (Python `str` of the ASCII fragment the
policy and the commands in scope use).  Interaction with the operating system
(spawned process, process table) is made explicit as inputs: `execute` receives
a `SpawnOutcome` describing what the OS did, and the safety validator receives
the OS process table as a `ProcTable`.
-/

namespace TerminalBot

/-- Python whitespace as stripped by `str.strip()` / split by `str.split()`
(ASCII fragment). -/
def pyWhitespace (c : Char) : Bool :=
  c = ' ' || c = '\t' || c = '\n' || c = '\r' || c = '\x0b' || c = '\x0c'

/-- Python `str.strip()`: drop leading and trailing whitespace. -/
def pyStrip (s : List Char) : List Char :=
  ((s.dropWhile pyWhitespace).reverse.dropWhile pyWhitespace).reverse

/-- Python `str.lower()` (ASCII fragment). -/
def pyLower (s : List Char) : List Char :=
  s.map Char.toLower

/-- Python `str.split()` with no separator: split on runs of whitespace,
dropping empty fields. -/
def pySplit (s : List Char) : List (List Char) :=
  (List.splitOnP pyWhitespace s).filter (fun t => !t.isEmpty)

/-- Does `needle` occur starting at position `i` of `hay`? -/
def matchesAt (needle hay : List Char) (i : Nat) : Bool :=
  needle.isPrefixOf (hay.drop i)

/-- Python's `needle in hay` substring test. -/
def listContains (needle hay : List Char) : Bool :=
  (List.range (hay.length + 1)).any (fun i => matchesAt needle hay i)

/-- `execute` — the executor's result record (`CommandResult` in
`executor/command.py`). `execution_time` is wall-clock time, kept abstract as a
natural number of clock ticks. -/
structure CommandResult where
  command : List Char
  returncode : Int
  stdout : List Char
  stderr : List Char
  execution_time : Nat
  timed_out : Bool := false
  truncated : Bool := false
  working_directory : List Char := []
  deriving Repr, DecidableEq

/-- `CommandResult.success`: `returncode == 0 and not timed_out`. -/
def CommandResult.success (r : CommandResult) : Bool :=
  r.returncode == 0 && !r.timed_out

/-- `CommandResult.output`: `stdout + stderr`. -/
def CommandResult.output (r : CommandResult) : List Char :=
  r.stdout ++ r.stderr

/-- `ExecutionConfig` from `config/settings.py`, with the shipped defaults. -/
structure ExecutionConfig where
  command_timeout : Nat := 30
  max_output_size : Nat := 10485760
  working_directory : Option (List Char) := none
  deriving Repr

/-- What the operating system did for one (non-dry-run) `execute` call.  The
constructors mirror the control paths of `CommandExecutor.execute`:

* `failure msg` — `create_subprocess_shell` (or any step of the `try` block)
  raised an exception with message `msg`; no process output exists.
* `completed out err rc` — the process finished within the timeout;
  `rc` is `process.returncode` (`none` models the OS supplying no exit code).
* `timedOut out err rc` — `wait_for` timed out, the process group was killed,
  and the second `communicate()` returned the buffered output `out`/`err`,
  with `rc` the `process.returncode` the OS then reported.
* `timedOutNoOutput rc` — `wait_for` timed out and the second 1-second
  `communicate()` also timed out, so the code substitutes empty stdout and a
  fixed stderr message. -/
inductive SpawnOutcome where
  | failure (message : List Char)
  | completed (stdout stderr : List Char) (returncode : Option Int)
  | timedOut (stdout stderr : List Char) (returncode : Option Int)
  | timedOutNoOutput (returncode : Option Int)
  deriving Repr, DecidableEq

/-- Did the outcome follow one of the two timeout paths? -/
def SpawnOutcome.isTimeout : SpawnOutcome → Bool
  | .timedOut _ _ _ => true
  | .timedOutNoOutput _ => true
  | _ => false

/-- The `process.returncode` the OS reported for the outcome (`none` both when
no process existed and when the OS supplied no exit code). -/
def SpawnOutcome.osReturncode : SpawnOutcome → Option Int
  | .failure _ => none
  | .completed _ _ rc => rc
  | .timedOut _ _ rc => rc
  | .timedOutNoOutput rc => rc

/-- `process.returncode or (124 if timed_out else 0)` — Python `or` takes the
right operand when `returncode` is falsy, i.e. `None` **or** `0`. -/
def pyReturncodeOr (rc : Option Int) (timedOut : Bool) : Int :=
  match rc with
  | none => if timedOut then 124 else 0
  | some v => if v = 0 then (if timedOut then 124 else 0) else v

/-- The truncation marker appended by the output-size limiter:
`"\n[... OUTPUT TRUNCATED ...]"`. -/
def truncMarker : List Char := "\n[... OUTPUT TRUNCATED ...]".data

/-- Lines 169–182 of `executor/command.py`: enforce the output size limit.
Returns the new stdout, the new stderr, and the `truncated` flag. -/
def truncateOutput (maxSize : Nat) (stdout stderr : List Char) :
    List Char × List Char × Bool :=
  -- total_output_size = len(stdout) + len(stderr);
  -- stdout_limit = maxSize * len(stdout) // total (⌊·⌋, ints are exact);
  -- stderr_limit = maxSize - stdout_limit
  if stdout.length + stderr.length > maxSize then
    (stdout.take (maxSize * stdout.length / (stdout.length + stderr.length))
       ++ truncMarker,
     stderr.take (maxSize
         - maxSize * stdout.length / (stdout.length + stderr.length))
       ++ truncMarker,
     true)
  else (stdout, stderr, false)

/-- Resolution of the working directory: `cwd` argument if given, else
`settings.execution.working_directory or os.getcwd()` (Python `or`: an empty
configured directory is falsy). `osCwd` models `os.getcwd()`. -/
def resolveCwd (settings : ExecutionConfig) (osCwd : List Char)
    (cwd : Option (List Char)) : List Char :=
  match cwd with
  | some d => d
  | none =>
    match settings.working_directory with
    | none => osCwd
    | some w => if w.isEmpty then osCwd else w

/-- The dry-run stdout text. -/
def dryRunStdout : List Char := "[DRY RUN] Command would be executed".data

/-- The stderr substituted when even the post-kill `communicate()` times out. -/
def timeoutKilledStderr : List Char := "Command timed out and was terminated".data

/-- `CommandExecutor.execute` (`executor/command.py`, lines 78–216), as a pure
function of the OS interaction.  `outcome` is what the OS did and `elapsed`
the measured wall-clock time; the audit-log side effect is outside the result
and omitted.  Output streams are modelled post-decoding (the source decodes
with `errors="replace"`, which never fails). -/
def execute (settings : ExecutionConfig) (osCwd : List Char)
    (command : List Char) (_timeout : Option Nat) (cwd : Option (List Char))
    (dry_run : Bool) (outcome : SpawnOutcome) (elapsed : Nat) : CommandResult :=
  let cwdR := resolveCwd settings osCwd cwd
  match dry_run with
  | true =>
    { command := command
      returncode := 0
      stdout := dryRunStdout
      stderr := []
      execution_time := 0
      working_directory := cwdR }
  | false =>
    match outcome with
    | .failure msg =>
      { command := command
        returncode := 1
        stdout := []
        stderr := "Execution error: ".data ++ msg
        execution_time := elapsed
        working_directory := cwdR }
    | .completed out err rc =>
      let t := truncateOutput settings.max_output_size out err
      { command := command
        returncode := pyReturncodeOr rc false
        stdout := t.1
        stderr := t.2.1
        execution_time := elapsed
        timed_out := false
        truncated := t.2.2
        working_directory := cwdR }
    | .timedOut out err rc =>
      let t := truncateOutput settings.max_output_size out err
      { command := command
        returncode := pyReturncodeOr rc true
        stdout := t.1
        stderr := t.2.1
        execution_time := elapsed
        timed_out := true
        truncated := t.2.2
        working_directory := cwdR }
    | .timedOutNoOutput rc =>
      let t := truncateOutput settings.max_output_size [] timeoutKilledStderr
      { command := command
        returncode := pyReturncodeOr rc true
        stdout := t.1
        stderr := t.2.1
        execution_time := elapsed
        timed_out := true
        truncated := t.2.2
        working_directory := cwdR }

/-! ## Safety validator (`agent/safety.py`) -/

/-- Python's `\w` word-character class (ASCII fragment): letters, digits,
underscore.  Used to model the `\b` word boundaries of `re.search`. -/
def wordChar (c : Char) : Bool :=
  c.isAlphanum || c = '_'

/-- Is the character at position `j` of `s` a word character?  Out of range
(including the virtual positions before the start and after the end of the
string) counts as non-word. -/
def isWordAt (s : List Char) (j : Nat) : Bool :=
  match s[j]? with
  | some c => wordChar c
  | none => false

/-- A `\b` word boundary holds at position `p` of `s` iff exactly one of the
characters around `p` is a word character. -/
def boundaryAt (s : List Char) (p : Nat) : Bool :=
  (if p = 0 then false else isWordAt s (p - 1)) != isWordAt s p

/-- `re.search(r"\b" + re.escape(needle) + r"\b", hay)`: `needle` occurs in
`hay` as a literal delimited by word boundaries. -/
def wordBoundedIn (needle hay : List Char) : Bool :=
  (List.range (hay.length + 1)).any
    (fun i => matchesAt needle hay i && boundaryAt hay i
      && boundaryAt hay (i + needle.length))

/-- `SafetyConfig` from `config/settings.py`, with the shipped defaults. -/
structure SafetyConfig where
  require_confirmation : Bool := true
  protected_processes : List (List Char) :=
    ["systemd".data, "init".data, "sshd".data, "NetworkManager".data,
     "dbus-daemon".data]
  protected_pids : List Int := [1]
  dangerous_commands : List (List Char) :=
    ["rm".data, "kill".data, "killall".data, "pkill".data,
     "systemctl stop".data, "systemctl disable".data, "systemctl mask".data,
     "reboot".data, "shutdown".data, "poweroff".data]
  deriving Repr

/-- `SafetyValidator.is_dangerous_command`: lowercase and strip the command,
then report whether any configured dangerous command matches at word
boundaries. -/
def is_dangerous_command (cfg : SafetyConfig) (command : List Char) : Bool :=
  let command_lower := pyStrip (pyLower command)
  cfg.dangerous_commands.any (fun d => wordBoundedIn d command_lower)

/-- The OS process table as seen by `psutil`, made explicit: the accessible
running processes as (pid, name) pairs.  `psutil.Process(pid)` raising
`NoSuchProcess`/`AccessDenied` is modelled by the pid being absent. -/
def ProcTable := List (Int × List Char)

/-- Look up the name of an accessible process by pid
(`psutil.Process(pid).name()`, `none` = raises). -/
def procName (table : ProcTable) (pid : Int) : Option (List Char) :=
  (List.find? (fun e => e.1 = pid) table).map (fun e => e.2)

/-- Parse the tail of a Python integer literal: digits, with single
underscores allowed between digits only. -/
def pyIntTail (acc : Nat) : List Char → Option Nat
  | [] => some acc
  | '_' :: c :: rest =>
    if c.isDigit then pyIntTail (acc * 10 + (c.toNat - 48)) rest else none
  | '_' :: [] => none
  | c :: rest =>
    if c.isDigit then pyIntTail (acc * 10 + (c.toNat - 48)) rest else none

/-- Parse a nonempty digit sequence (with Python's grouping underscores). -/
def pyIntDigits : List Char → Option Nat
  | c :: rest => if c.isDigit then pyIntTail (c.toNat - 48) rest else none
  | [] => none

/-- Python `int(identifier)`: surrounding whitespace allowed, optional sign,
then digits.  `none` models `ValueError`. -/
def pyParseInt (s : List Char) : Option Int :=
  match pyStrip s with
  | '+' :: rest => (pyIntDigits rest).map (fun n => (n : Int))
  | '-' :: rest => (pyIntDigits rest).map (fun n => -(n : Int))
  | rest => (pyIntDigits rest).map (fun n => (n : Int))

/-- The reason string for a protected pid:
`f"PID {pid} is a protected system process"`. -/
def pidReason (pid : Int) : List Char :=
  "PID ".data ++ (toString pid).data ++ " is a protected system process".data

/-- The reason string for a protected name:
`f"'{protected}' is a protected system process"`. -/
def nameReason (protected_ : List Char) : List Char :=
  "'".data ++ protected_ ++ "' is a protected system process".data

/-- The name-matching half of `is_protected_process` (lines 77–83): first
protected entry (in policy order) occurring case-insensitively as a substring
of the process name. -/
def protectedNameCheck (cfg : SafetyConfig) (process_name : List Char) :
    Bool × Option (List Char) :=
  let process_name_lower := pyLower process_name
  match cfg.protected_processes.find?
      (fun p => listContains (pyLower p) process_name_lower) with
  | some p => (true, some (nameReason p))
  | none => (false, none)

/-- `SafetyValidator.is_protected_process` (lines 50–83), with the OS process
table an explicit input.  For a parsed *negative* pid, `psutil.Process(pid)`
raises `ValueError` (not `NoSuchProcess`/`AccessDenied`), so control reaches
the outer `except ValueError` and the identifier string itself is
name-checked. -/
def is_protected_process (cfg : SafetyConfig) (table : ProcTable)
    (identifier : List Char) : Bool × Option (List Char) :=
  match pyParseInt identifier with
  | some pid =>
    if pid ∈ cfg.protected_pids then (true, some (pidReason pid))
    else if pid < 0 then
      -- psutil.Process raised ValueError → process_name = identifier
      protectedNameCheck cfg identifier
    else
      match procName table pid with
      | none => (false, none)
      | some process_name => protectedNameCheck cfg process_name
  | none => protectedNameCheck cfg identifier

/-- The process name that `is_protected_process` subjects to the name check:
the identifier itself when it is not numeric, and also when it is a
*negative* number — `psutil.Process(pid)` raises `ValueError` for `pid < 0`,
which the inner `except (NoSuchProcess, AccessDenied)` does not catch, so
the outer `except ValueError` sets `process_name = identifier`.  For a
non-negative pid it is the name the OS process table resolves the pid to
(`none` when the process does not exist or is inaccessible, i.e. psutil
raised `NoSuchProcess`/`AccessDenied`). -/
def resolvedName (table : ProcTable) (identifier : List Char) :
    Option (List Char) :=
  match pyParseInt identifier with
  | some pid =>
    if pid < 0 then some identifier
    else procName table pid
  | none => some identifier

/-- The process-info record built by `_get_process_info` for display.  The
psutil metric fields (`cpu_percent`, `memory_percent`) are runtime samples and
kept out of the model; the claims only use which record shape is returned. -/
inductive ProcessInfo where
  | pidInfo (pid : Int) (name : List Char)
  | nameMatches (count : Nat)
  | serviceInfo (service action : List Char)
  deriving Repr, DecidableEq

/-- The `except ValueError` branch of `_get_process_info` (lines 164–178):
scan the running processes for names containing the identifier
case-insensitively. -/
def processNameScan (table : ProcTable) (identifier : List Char) :
    Option ProcessInfo :=
  let processes := table.filter
    (fun e => listContains (pyLower identifier) (pyLower e.2))
  if processes.isEmpty then none else some (.nameMatches processes.length)

/-- `SafetyValidator._get_process_info` (lines 142–183): best-effort process
lookup for display; `none` when nothing matches or the process is gone.  A
*negative* parsed pid makes `psutil.Process(pid)` raise `ValueError`, which
lands in the name-scan branch with the identifier string; a non-negative pid
absent from the table raises `NoSuchProcess`, caught by the outer handler,
giving `none`. -/
def getProcessInfo (table : ProcTable) (identifier : List Char) :
    Option ProcessInfo :=
  match pyParseInt identifier with
  | some pid =>
    if pid < 0 then processNameScan table identifier
    else (procName table pid).map (fun n => .pidInfo pid n)
  | none => processNameScan table identifier

/-- Fuel-driven scan for `pyReplace` (structural recursion on the fuel; the
fuel is set to the string length, which bounds the number of steps since
each step consumes at least one character). -/
def pyReplaceFuel (old new_ : List Char) : Nat → List Char → List Char
  | 0, s => s
  | _ + 1, [] => []
  | fuel + 1, c :: rest =>
    if old ≠ [] ∧ old.isPrefixOf (c :: rest) then
      new_ ++ pyReplaceFuel old new_ fuel ((c :: rest).drop old.length)
    else
      c :: pyReplaceFuel old new_ fuel rest

/-- Python `str.replace(old, new)` for a nonempty `old`: replace every
non-overlapping occurrence, left to right.  (The source only calls this with
`old = ".service"`.) -/
def pyReplace (old new_ s : List Char) : List Char :=
  pyReplaceFuel old new_ s.length s

/-- The token-level body of `SafetyValidator.validate_kill_command` (lines
96–140), applied to `tokens = command.split()`. -/
def validateKillTokens (cfg : SafetyConfig) (table : ProcTable)
    (tokens : List (List Char)) :
    Bool × Option (List Char) × Option ProcessInfo :=
  match tokens with
  | [] => (false, some "Empty command".data, none)
  | cmd :: rest =>
    if cmd = "kill".data ∨ cmd = "killall".data ∨ cmd = "pkill".data then
      if (cmd :: rest).length < 2 then
        (false, some ("No target specified for ".data ++ cmd), none)
      else
        -- target = tokens[-1]
        let target := (cmd :: rest).getLastD []
        let res := is_protected_process cfg table target
        if res.1 then (false, res.2, none)
        else (true, none, getProcessInfo table target)
    else if listContains "systemctl".data cmd then
      if (cmd :: rest).length < 3 then
        (false, some "Incomplete systemctl command".data, none)
      else
        -- action = tokens[1] if len(tokens) > 1 else ""
        -- service = tokens[2] if len(tokens) > 2 else ""
        let action := (cmd :: rest).getD 1 []
        let service := (cmd :: rest).getD 2 []
        if action = "stop".data ∨ action = "disable".data ∨ action = "mask".data
        then
          -- service_name = service.replace(".service", "")
          let service_name := pyReplace ".service".data [] service
          let res := is_protected_process cfg table service_name
          if res.1 then (false, res.2, none)
          else (true, none, some (.serviceInfo service action))
        else (true, none, none)
    else (true, none, none)

/-- `SafetyValidator.validate_kill_command` (lines 85–140): split the command
on whitespace and validate the tokens; returns
`(is_safe, error_message, process_info)`. -/
def validate_kill_command (cfg : SafetyConfig) (table : ProcTable)
    (command : List Char) : Bool × Option (List Char) × Option ProcessInfo :=
  validateKillTokens cfg table (pySplit command)

/-- The kill/stop-variant test inlined in `requires_confirmation` (lines
201–204): one of the four markers occurs as a substring of the lowercased
command. -/
def isKillStopVariant (command : List Char) : Bool :=
  ["kill".data, "killall".data, "pkill".data, "systemctl stop".data].any
    (fun k => listContains k (pyLower command))

/-- The explanatory reason built by `requires_confirmation` (lines 211–216)
when the kill command was validated as safe. -/
def terminateReason (info : Option ProcessInfo) : List Char :=
  let base := "This command will terminate processes".data
  match info with
  | some (.nameMatches count) =>
    base ++ " (".data ++ (toString count).data ++ " matching processes)".data
  | some (.serviceInfo service _) =>
    base ++ " (service: ".data ++ service ++ ")".data
  | _ => base

/-- `SafetyValidator.requires_confirmation` (lines 185–222): returns
`(requires_confirmation, reason)`. -/
def requires_confirmation (cfg : SafetyConfig) (table : ProcTable)
    (command : List Char) : Bool × Option (List Char) :=
  if !cfg.require_confirmation then (false, none)
  else if is_dangerous_command cfg command then
    if isKillStopVariant command then
      let v := validate_kill_command cfg table command
      if !v.1 then (true, v.2.1)
      else (true, some (terminateReason v.2.2))
    else (true, some "This is a potentially destructive command".data)
  else (false, none)

/-! ## General lemmas about the string model -/

/-- A list occurs as a substring of anything it is a suffix of. -/
lemma listContains_append_left (a b : List Char) :
    listContains b (a ++ b) = true := by
  unfold listContains
  rw [List.any_eq_true]
  refine ⟨a.length, ?_, ?_⟩
  · rw [List.mem_range, List.length_append]
    omega
  · unfold matchesAt
    rw [List.drop_left, List.isPrefixOf_iff_prefix]

/-! ## Claims about the executor -/

/-- **C1 (amended).** Every execution that exceeds its timeout returns a
result with `timed_out = true` and `succeeded = false`; the exit code is
forced to the sentinel 124 exactly when the OS supplied no exit code (or
supplied 0, also falsy to Python's `or`) — when the OS reports a nonzero code
for the killed process (e.g. `-9` from the SIGKILL sent to the process
group), that code is returned instead. -/
theorem timeout_result_fields (settings : ExecutionConfig)
    (osCwd command : List Char) (timeout : Option Nat)
    (cwd : Option (List Char)) (outcome : SpawnOutcome) (elapsed : Nat)
    (h : outcome.isTimeout = true) :
    (execute settings osCwd command timeout cwd false outcome elapsed).timed_out
        = true ∧
    (execute settings osCwd command timeout cwd false outcome elapsed).success
        = false ∧
    ((outcome.osReturncode = none ∨ outcome.osReturncode = some 0) →
      (execute settings osCwd command timeout cwd false outcome
          elapsed).returncode = 124) := by
  cases outcome with
  | failure msg => simp [SpawnOutcome.isTimeout] at h
  | completed out err rc => simp [SpawnOutcome.isTimeout] at h
  | timedOut out err rc =>
    refine ⟨rfl, by simp [execute, CommandResult.success], ?_⟩
    rintro (hrc | hrc) <;> simp_all [SpawnOutcome.osReturncode, execute,
      pyReturncodeOr]
  | timedOutNoOutput rc =>
    refine ⟨rfl, by simp [execute, CommandResult.success], ?_⟩
    rintro (hrc | hrc) <;> simp_all [SpawnOutcome.osReturncode, execute,
      pyReturncodeOr]

/-- Witness for C1's amended theorem: a run of `sleep 5` with `timeout = 1`
whose post-kill `communicate()` also timed out with the OS supplying no exit
code has `timed_out = true`, `succeeded = false` and `exit_code = 124`. -/
theorem timeout_result_fields_witness :
    (SpawnOutcome.timedOutNoOutput none).isTimeout = true ∧
    ((execute {} "/home".data "sleep 5".data (some 1) none false
        (.timedOutNoOutput none) 1).timed_out = true ∧
     (execute {} "/home".data "sleep 5".data (some 1) none false
        (.timedOutNoOutput none) 1).success = false ∧
     (((SpawnOutcome.timedOutNoOutput none).osReturncode = none ∨
       (SpawnOutcome.timedOutNoOutput none).osReturncode = some 0) →
      (execute {} "/home".data "sleep 5".data (some 1) none false
          (.timedOutNoOutput none) 1).returncode = 124)) :=
  ⟨by decide,
   timeout_result_fields {} "/home".data "sleep 5".data (some 1) none
     (.timedOutNoOutput none) 1 (by decide)⟩

/-- **C1 counterexample.** The claim "every timed-out execution has
`exit_code = 124`" fails on the code: when the OS reports exit code `-9` for
the killed process (the normal case after `os.killpg(..., 9)`), Python's
`process.returncode or 124` keeps `-9`, so the result of a timed-out run has
`timed_out = true` but `returncode = -9 ≠ 124`. -/
theorem timeout_returncode_not_forced :
    (execute {} "/home".data "sleep 5".data (some 1) none false
        (.timedOut [] [] (some (-9))) 1).timed_out = true ∧
    (execute {} "/home".data "sleep 5".data (some 1) none false
        (.timedOut [] [] (some (-9))) 1).returncode = -9 ∧
    ¬ (execute {} "/home".data "sleep 5".data (some 1) none false
        (.timedOut [] [] (some (-9))) 1).returncode = 124 := by
  refine ⟨rfl, rfl, by decide⟩

/-- **C10.** A dry-run call returns, for every possible OS behaviour, the
same synthetic success result: `exit_code = 0`, `succeeded = true`,
`execution_time = 0`, the resolved working directory — and the result is
independent of the spawn outcome and of the clock, which embeds "no process
is spawned". -/
theorem dry_run_result (settings : ExecutionConfig) (osCwd command : List Char)
    (timeout : Option Nat) (cwd : Option (List Char))
    (outcome outcome' : SpawnOutcome) (elapsed elapsed' : Nat) :
    (execute settings osCwd command timeout cwd true outcome
        elapsed).returncode = 0 ∧
    (execute settings osCwd command timeout cwd true outcome
        elapsed).success = true ∧
    (execute settings osCwd command timeout cwd true outcome
        elapsed).execution_time = 0 ∧
    (execute settings osCwd command timeout cwd true outcome
        elapsed).timed_out = false ∧
    (execute settings osCwd command timeout cwd true outcome
        elapsed).working_directory = resolveCwd settings osCwd cwd ∧
    (execute settings osCwd command timeout cwd true outcome
        elapsed).stdout = dryRunStdout ∧
    execute settings osCwd command timeout cwd true outcome elapsed =
      execute settings osCwd command timeout cwd true outcome' elapsed' := by
  simp [execute, CommandResult.success]

/-- **C3.** `execute` is a total function into `CommandResult` (the embedding
of "never raises across the public boundary"), and on a spawn/IO failure —
whose outcome constructor carries no process, embedding "no process spawned
on pre-spawn failures" — the result has `returncode = 1`, empty stdout, and
the error message in `stderr` (prefixed `"Execution error: "`). -/
theorem spawn_failure_result (settings : ExecutionConfig)
    (osCwd command : List Char) (timeout : Option Nat)
    (cwd : Option (List Char)) (dry_run : Bool) (outcome : SpawnOutcome)
    (elapsed : Nat) (msg : List Char) :
    (∃ r : CommandResult,
      execute settings osCwd command timeout cwd dry_run outcome elapsed = r) ∧
    (outcome = .failure msg →
      (execute settings osCwd command timeout cwd false outcome
          elapsed).returncode = 1 ∧
      (execute settings osCwd command timeout cwd false outcome
          elapsed).stdout = [] ∧
      (execute settings osCwd command timeout cwd false outcome
          elapsed).stderr = "Execution error: ".data ++ msg ∧
      listContains msg
        (execute settings osCwd command timeout cwd false outcome
          elapsed).stderr = true ∧
      (execute settings osCwd command timeout cwd false outcome
          elapsed).timed_out = false) := by
  refine ⟨⟨_, rfl⟩, ?_⟩
  rintro rfl
  refine ⟨rfl, rfl, rfl, ?_, rfl⟩
  exact listContains_append_left _ _

/-- Witness for C3: an invalid working directory makes the spawn raise; the
result captures the error with exit code 1. -/
theorem spawn_failure_result_witness :
    (execute {} "/home".data "ls".data none (some "/nope".data) false
        (.failure "[Errno 2] No such file or directory: '/nope'".data) 0
        ).returncode = 1 ∧
    (execute {} "/home".data "ls".data none (some "/nope".data) false
        (.failure "[Errno 2] No such file or directory: '/nope'".data) 0
        ).stderr = "Execution error: ".data
          ++ "[Errno 2] No such file or directory: '/nope'".data :=
  have h := (spawn_failure_result {} "/home".data "ls".data none
    (some "/nope".data) false
    (.failure "[Errno 2] No such file or directory: '/nope'".data) 0
    "[Errno 2] No such file or directory: '/nope'".data).2 rfl
  ⟨h.1, h.2.2.1⟩

/-- **C2.** When the decoded outputs jointly exceed `max_output_size`,
`execute` truncates proportionally: `stdout` is cut to
`stdout_limit = ⌊max_output_size * len(stdout) / total⌋` and `stderr` to
`max_output_size - stdout_limit`, the truncation marker is appended to each
stream, `truncated = true`, and the combined result length is at most
`max_output_size + 2 * len(marker)`. -/
theorem output_truncation (settings : ExecutionConfig)
    (osCwd command : List Char) (timeout : Option Nat)
    (cwd : Option (List Char)) (rc : Option Int) (elapsed : Nat)
    (out err : List Char)
    (h : out.length + err.length > settings.max_output_size) :
    (execute settings osCwd command timeout cwd false (.completed out err rc)
        elapsed).truncated = true ∧
    (execute settings osCwd command timeout cwd false (.completed out err rc)
        elapsed).stdout =
      out.take (settings.max_output_size * out.length
        / (out.length + err.length)) ++ truncMarker ∧
    (execute settings osCwd command timeout cwd false (.completed out err rc)
        elapsed).stderr =
      err.take (settings.max_output_size
        - settings.max_output_size * out.length / (out.length + err.length))
        ++ truncMarker ∧
    (execute settings osCwd command timeout cwd false (.completed out err rc)
        elapsed).stdout.length +
      (execute settings osCwd command timeout cwd false (.completed out err rc)
        elapsed).stderr.length ≤
      settings.max_output_size + 2 * truncMarker.length := by
  have h0 : 0 < out.length + err.length := by omega
  have hsl : settings.max_output_size * out.length / (out.length + err.length)
      ≤ settings.max_output_size := by
    calc settings.max_output_size * out.length / (out.length + err.length)
        ≤ settings.max_output_size * (out.length + err.length)
            / (out.length + err.length) :=
          Nat.div_le_div_right (Nat.mul_le_mul_left _ (Nat.le_add_right _ _))
      _ = settings.max_output_size := Nat.mul_div_cancel _ h0
  have key : truncateOutput settings.max_output_size out err =
      (out.take (settings.max_output_size * out.length
          / (out.length + err.length)) ++ truncMarker,
       err.take (settings.max_output_size
          - settings.max_output_size * out.length / (out.length + err.length))
          ++ truncMarker,
       true) := by
    unfold truncateOutput
    rw [if_pos h]
  have hm : truncMarker.length = 27 := rfl
  simp only [execute, key]
  refine ⟨trivial, trivial, trivial, ?_⟩
  simp only [List.length_append, List.length_take, hm]
  omega

set_option maxRecDepth 4000 in
/-- Witness for C2: `max_output_size = 100` with a 600/400 stdout/stderr
split of 1000 characters gives `stdout_limit = 60`, `truncated = true` and a
combined length within `100 + 2 * len(marker)`. -/
theorem output_truncation_witness :
    ((List.replicate 600 'a').length + (List.replicate 400 'b').length
      > ({ max_output_size := 100 : ExecutionConfig }).max_output_size) ∧
    (100 * (List.replicate 600 'a').length
      / ((List.replicate 600 'a').length + (List.replicate 400 'b').length)
      = 60) ∧
    ((execute { max_output_size := 100 } "/home".data "make test".data none
        none false (.completed (List.replicate 600 'a')
          (List.replicate 400 'b') (some 0)) 3).truncated = true ∧
     (execute { max_output_size := 100 } "/home".data "make test".data none
        none false (.completed (List.replicate 600 'a')
          (List.replicate 400 'b') (some 0)) 3).stdout =
       (List.replicate 600 'a').take
         (({ max_output_size := 100 : ExecutionConfig }).max_output_size
           * (List.replicate 600 'a').length
           / ((List.replicate 600 'a').length
             + (List.replicate 400 'b').length)) ++ truncMarker ∧
     (execute { max_output_size := 100 } "/home".data "make test".data none
        none false (.completed (List.replicate 600 'a')
          (List.replicate 400 'b') (some 0)) 3).stderr =
       (List.replicate 400 'b').take
         (({ max_output_size := 100 : ExecutionConfig }).max_output_size
           - ({ max_output_size := 100 : ExecutionConfig }).max_output_size
             * (List.replicate 600 'a').length
             / ((List.replicate 600 'a').length
               + (List.replicate 400 'b').length)) ++ truncMarker ∧
     (execute { max_output_size := 100 } "/home".data "make test".data none
        none false (.completed (List.replicate 600 'a')
          (List.replicate 400 'b') (some 0)) 3).stdout.length +
       (execute { max_output_size := 100 } "/home".data "make test".data none
          none false (.completed (List.replicate 600 'a')
            (List.replicate 400 'b') (some 0)) 3).stderr.length ≤
       ({ max_output_size := 100 : ExecutionConfig }).max_output_size
         + 2 * truncMarker.length) :=
  ⟨by simp only [List.length_replicate]; try decide,
   by simp only [List.length_replicate]; try decide,
   output_truncation { max_output_size := 100 } "/home".data "make test".data
     none none (some 0) 3 (List.replicate 600 'a') (List.replicate 400 'b')
     (by simp only [List.length_replicate]; try decide)⟩

/-! ## Claims about the safety validator -/

/-- If some protected entry matches, the name check reports the first match
with its reason. -/
lemma protectedNameCheck_pos (cfg : SafetyConfig) (name : List Char)
    (h : ∃ p ∈ cfg.protected_processes,
      listContains (pyLower p) (pyLower name) = true) :
    ∃ p ∈ cfg.protected_processes,
      listContains (pyLower p) (pyLower name) = true ∧
      protectedNameCheck cfg name = (true, some (nameReason p)) := by
  have hs : (cfg.protected_processes.find?
      (fun p => listContains (pyLower p) (pyLower name))).isSome := by
    rw [List.find?_isSome]
    obtain ⟨q, hq, hqc⟩ := h
    exact ⟨q, hq, hqc⟩
  obtain ⟨p, hp⟩ := Option.isSome_iff_exists.mp hs
  refine ⟨p, List.mem_of_find?_eq_some hp, ?_, ?_⟩
  · have hpt := List.find?_some hp
    simpa using hpt
  · simp [protectedNameCheck, hp]

/-- If no protected entry matches, the name check reports not protected. -/
lemma protectedNameCheck_neg (cfg : SafetyConfig) (name : List Char)
    (h : ∀ p ∈ cfg.protected_processes,
      listContains (pyLower p) (pyLower name) = false) :
    protectedNameCheck cfg name = (false, none) := by
  have hn : cfg.protected_processes.find?
      (fun p => listContains (pyLower p) (pyLower name)) = none := by
    rw [List.find?_eq_none]
    intro p hp
    simp [h p hp]
  simp [protectedNameCheck, hn]

/-- **C4.** Case analysis of `is_protected_process` over the modelled OS
process table: a numeric identifier in the protected-PID set is protected
with a reason citing the PID; a non-negative numeric identifier outside the
set whose process does not exist or is inaccessible (psutil raised
`NoSuchProcess`/`AccessDenied`: the pid is absent from the table) is
unprotected; when the name subjected to the check — the identifier itself
for a non-numeric or negative-numeric identifier (psutil's `ValueError`
path), the table-resolved name otherwise — contains some protected name
case-insensitively, the result is protected with a reason citing the
matched name; otherwise unprotected with no reason. -/
theorem is_protected_process_cases (cfg : SafetyConfig) (table : ProcTable)
    (identifier : List Char) :
    (∀ pid : Int, pyParseInt identifier = some pid →
      pid ∈ cfg.protected_pids →
      is_protected_process cfg table identifier =
        (true, some (pidReason pid))) ∧
    (∀ pid : Int, pyParseInt identifier = some pid →
      pid ∉ cfg.protected_pids → 0 ≤ pid → procName table pid = none →
      is_protected_process cfg table identifier = (false, none)) ∧
    (∀ name : List Char, resolvedName table identifier = some name →
      (∀ pid : Int, pyParseInt identifier = some pid →
        pid ∉ cfg.protected_pids) →
      (∃ p ∈ cfg.protected_processes,
        listContains (pyLower p) (pyLower name) = true) →
      ∃ p ∈ cfg.protected_processes,
        listContains (pyLower p) (pyLower name) = true ∧
        is_protected_process cfg table identifier =
          (true, some (nameReason p))) ∧
    (∀ name : List Char, resolvedName table identifier = some name →
      (∀ pid : Int, pyParseInt identifier = some pid →
        pid ∉ cfg.protected_pids) →
      (∀ p ∈ cfg.protected_processes,
        listContains (pyLower p) (pyLower name) = false) →
      is_protected_process cfg table identifier = (false, none)) := by
  refine ⟨?_, ?_, ?_, ?_⟩
  · intro pid hp hmem
    simp [is_protected_process, hp, hmem]
  · intro pid hp hmem hnonneg hpn
    simp [is_protected_process, hp, hmem, hpn, show ¬ pid < 0 by omega]
  · intro name hres hguard hex
    cases hpp : pyParseInt identifier with
    | some pid =>
      have hmem := hguard pid hpp
      by_cases hneg : pid < 0
      · have hid : name = identifier := by
          have := hres
          simp [resolvedName, hpp, hneg] at this
          exact this.symm
        subst hid
        obtain ⟨p, hp1, hp2, hp3⟩ := protectedNameCheck_pos cfg name hex
        exact ⟨p, hp1, hp2,
          by simp [is_protected_process, hpp, hmem, hneg, hp3]⟩
      · have hpn : procName table pid = some name := by
          simpa [resolvedName, hpp, hneg] using hres
        obtain ⟨p, hp1, hp2, hp3⟩ := protectedNameCheck_pos cfg name hex
        exact ⟨p, hp1, hp2,
          by simp [is_protected_process, hpp, hmem, hneg, hpn, hp3]⟩
    | none =>
      have hid : name = identifier := by
        have := hres
        simp [resolvedName, hpp] at this
        exact this.symm
      subst hid
      obtain ⟨p, hp1, hp2, hp3⟩ := protectedNameCheck_pos cfg name hex
      exact ⟨p, hp1, hp2, by simp [is_protected_process, hpp, hp3]⟩
  · intro name hres hguard hall
    cases hpp : pyParseInt identifier with
    | some pid =>
      have hmem := hguard pid hpp
      by_cases hneg : pid < 0
      · have hid : name = identifier := by
          have := hres
          simp [resolvedName, hpp, hneg] at this
          exact this.symm
        subst hid
        simp [is_protected_process, hpp, hmem, hneg,
          protectedNameCheck_neg cfg name hall]
      · have hpn : procName table pid = some name := by
          simpa [resolvedName, hpp, hneg] using hres
        simp [is_protected_process, hpp, hmem, hneg, hpn,
          protectedNameCheck_neg cfg name hall]
    | none =>
      have hid : name = identifier := by
        have := hres
        simp [resolvedName, hpp] at this
        exact this.symm
      subst hid
      simp [is_protected_process, hpp, protectedNameCheck_neg cfg name hall]

/-- Witness for C4: under the default policy and an empty process table,
`"1"` is protected citing PID 1, the non-existent `"99999999"` is not
protected, and `"systemd"` is protected citing the matched name; moreover,
on psutil's `ValueError` path, the negative identifier `"-1"` is name-checked
as a string and is protected when `"1"` is a protected name. -/
theorem is_protected_process_cases_witness :
    is_protected_process {} [] "1".data = (true, some (pidReason 1)) ∧
    is_protected_process {} [] "99999999".data = (false, none) ∧
    (∃ p ∈ ({} : SafetyConfig).protected_processes,
      listContains (pyLower p) (pyLower "systemd".data) = true ∧
      is_protected_process {} [] "systemd".data =
        (true, some (nameReason p))) ∧
    (∃ p ∈ ({ protected_processes := ["1".data] }
        : SafetyConfig).protected_processes,
      listContains (pyLower p) (pyLower "-1".data) = true ∧
      is_protected_process { protected_processes := ["1".data] } []
        "-1".data = (true, some (nameReason p))) :=
  ⟨(is_protected_process_cases {} [] "1".data).1 1 (by decide) (by decide),
   (is_protected_process_cases {} [] "99999999".data).2.1 99999999
     (by decide) (by decide) (by decide) rfl,
   (is_protected_process_cases {} [] "systemd".data).2.2.1 "systemd".data rfl
     (by
       intro pid hp
       rw [show pyParseInt "systemd".data = none from by decide] at hp
       cases hp)
     (by decide),
   (is_protected_process_cases { protected_processes := ["1".data] } []
       "-1".data).2.2.1 "-1".data (by decide)
     (by
       intro pid hp
       rw [show pyParseInt "-1".data = some (-1) from by decide] at hp
       cases hp
       decide)
     (by decide)⟩

/-- **C5.** For a command whose first token is `kill`, `killall` or `pkill`:
with no further token the validator rejects with a no-target error;
otherwise the last token is the target, and the command is unsafe with the
protection reason exactly when the target is protected, safe with
best-effort process info (whose absence is not an error: the info is
whatever the table yields) otherwise. -/
theorem validate_kill_family (cfg : SafetyConfig) (table : ProcTable)
    (command : List Char) (cmd : List Char) (rest : List (List Char))
    (hsplit : pySplit command = cmd :: rest)
    (hcmd : cmd = "kill".data ∨ cmd = "killall".data ∨ cmd = "pkill".data) :
    (rest = [] →
      validate_kill_command cfg table command =
        (false, some ("No target specified for ".data ++ cmd), none)) ∧
    (rest ≠ [] →
      ((is_protected_process cfg table ((cmd :: rest).getLastD [])).1 = true →
        validate_kill_command cfg table command =
          (false,
           (is_protected_process cfg table ((cmd :: rest).getLastD [])).2,
           none)) ∧
      ((is_protected_process cfg table ((cmd :: rest).getLastD [])).1 = false →
        validate_kill_command cfg table command =
          (true, none, getProcessInfo table ((cmd :: rest).getLastD [])))) := by
  constructor
  · rintro rfl
    unfold validate_kill_command
    rw [hsplit]
    simp only [validateKillTokens]
    rw [if_pos hcmd, if_pos (by simp : ([cmd] : List (List Char)).length < 2)]
  · intro hne
    have hpos : 0 < rest.length := List.length_pos.mpr hne
    have hlen : ¬ (cmd :: rest).length < 2 := by
      simp only [List.length_cons]; omega
    unfold validate_kill_command
    rw [hsplit]
    simp only [validateKillTokens]
    rw [if_pos hcmd, if_neg hlen]
    constructor
    · intro hprot
      rw [if_pos hprot]
    · intro hprot
      rw [if_neg (by simp only [hprot]; exact Bool.false_ne_true)]

/-- Witness for C5: `kill 1` is rejected with the protection reason for its
last token `1`; bare `kill` is rejected with the no-target error; and with
`"1"` a protected name, `kill -1` is rejected because the negative target
`-1` is string-name-checked on psutil's `ValueError` path. -/
theorem validate_kill_family_witness :
    validate_kill_command {} [] "kill 1".data =
      (false,
       (is_protected_process {} []
         (("kill".data :: ["1".data]).getLastD [])).2,
       none) ∧
    validate_kill_command {} [] "kill".data =
      (false, some ("No target specified for ".data ++ "kill".data), none) ∧
    validate_kill_command { protected_processes := ["1".data] } []
        "kill -1".data =
      (false,
       (is_protected_process { protected_processes := ["1".data] } []
         (("kill".data :: ["-1".data]).getLastD [])).2,
       none) :=
  ⟨((validate_kill_family {} [] "kill 1".data "kill".data ["1".data]
      (by decide) (Or.inl rfl)).2 (by decide)).1 (by decide),
   (validate_kill_family {} [] "kill".data "kill".data [] (by decide)
      (Or.inl rfl)).1 rfl,
   ((validate_kill_family { protected_processes := ["1".data] } []
      "kill -1".data "kill".data ["-1".data]
      (by decide) (Or.inl rfl)).2 (by decide)).1 (by decide)⟩

/-- Every explanatory reason built for a safe kill command starts with the
fixed base message. -/
lemma terminateReason_prefix (info : Option ProcessInfo) :
    "This command will terminate processes".data <+: terminateReason info := by
  rcases info with _ | info
  · simp [terminateReason]
  · cases info <;> simp [terminateReason, List.prefix_append]

/-- **C8.** `requires_confirmation` short-circuits to `(false, none)` when
confirmation is globally disabled or the command is not dangerous; for a
dangerous kill/stop variant it delegates to `validate_kill_command`,
surfacing the block reason when unsafe and an explanatory reason (starting
with the fixed base message) when safe; a dangerous non-kill/stop command
gets the generic potentially-destructive reason. -/
theorem requires_confirmation_cases (cfg : SafetyConfig) (table : ProcTable)
    (command : List Char) :
    (cfg.require_confirmation = false →
      requires_confirmation cfg table command = (false, none)) ∧
    (is_dangerous_command cfg command = false →
      requires_confirmation cfg table command = (false, none)) ∧
    (cfg.require_confirmation = true →
      is_dangerous_command cfg command = true →
      isKillStopVariant command = true →
      (((validate_kill_command cfg table command).1 = false →
        requires_confirmation cfg table command =
          (true, (validate_kill_command cfg table command).2.1)) ∧
       ((validate_kill_command cfg table command).1 = true →
        requires_confirmation cfg table command =
          (true,
           some (terminateReason
             (validate_kill_command cfg table command).2.2)) ∧
        "This command will terminate processes".data <+:
          terminateReason (validate_kill_command cfg table command).2.2))) ∧
    (cfg.require_confirmation = true →
      is_dangerous_command cfg command = true →
      isKillStopVariant command = false →
      requires_confirmation cfg table command =
        (true, some "This is a potentially destructive command".data)) := by
  refine ⟨?_, ?_, ?_, ?_⟩
  · intro h
    simp [requires_confirmation, h]
  · intro h
    simp [requires_confirmation, h]
  · intro h1 h2 h3
    constructor
    · intro hv
      simp [requires_confirmation, h1, h2, h3, hv]
    · intro hv
      exact ⟨by simp [requires_confirmation, h1, h2, h3, hv],
        terminateReason_prefix _⟩
  · intro h1 h2 h3
    simp [requires_confirmation, h1, h2, h3]

/-- Witness for C8: under the default policy, `ls -la` needs no
confirmation; `rm -rf /` gets the generic destructive reason; `kill 1` is a
dangerous kill variant reported unsafe, so the block reason is surfaced —
as is `kill -1` when `"1"` is a protected name, via the negative-pid
`ValueError` path of the protection check. -/
theorem requires_confirmation_cases_witness :
    requires_confirmation {} [] "ls -la".data = (false, none) ∧
    requires_confirmation {} [] "rm -rf /".data =
      (true, some "This is a potentially destructive command".data) ∧
    requires_confirmation {} [] "kill 1".data =
      (true, (validate_kill_command {} [] "kill 1".data).2.1) ∧
    requires_confirmation { protected_processes := ["1".data] } []
        "kill -1".data =
      (true,
       (validate_kill_command { protected_processes := ["1".data] } []
         "kill -1".data).2.1) :=
  ⟨(requires_confirmation_cases {} [] "ls -la".data).2.1 (by decide),
   (requires_confirmation_cases {} [] "rm -rf /".data).2.2.2 rfl (by decide)
     (by decide),
   ((requires_confirmation_cases {} [] "kill 1".data).2.2.1 rfl (by decide)
     (by decide)).1 (by decide),
   ((requires_confirmation_cases { protected_processes := ["1".data] } []
     "kill -1".data).2.2.1 rfl (by decide) (by decide)).1 (by decide)⟩

/-- **C9.** With confirmation enabled, `requires_confirmation` returns
`(false, none)` for every command whose dangerous-substring check fails:
the protected-PID/name checks of `validate_kill_command` are reachable only
through the `is_dangerous_command` gate. -/
theorem not_dangerous_no_confirmation (cfg : SafetyConfig)
    (table : ProcTable) (command : List Char)
    (h1 : cfg.require_confirmation = true)
    (h2 : is_dangerous_command cfg command = false) :
    requires_confirmation cfg table command = (false, none) := by
  simp [requires_confirmation, h1, h2]

/-- Witness for C9: with `kill` removed from the dangerous-command list,
`kill 1` targets the protected PID 1 yet requires no confirmation. -/
theorem not_dangerous_no_confirmation_witness :
    (is_protected_process
      { dangerous_commands :=
          ["rm".data, "killall".data, "pkill".data, "systemctl stop".data,
           "systemctl disable".data, "systemctl mask".data, "reboot".data,
           "shutdown".data, "poweroff".data] }
      [] "1".data).1 = true ∧
    requires_confirmation
      { dangerous_commands :=
          ["rm".data, "killall".data, "pkill".data, "systemctl stop".data,
           "systemctl disable".data, "systemctl mask".data, "reboot".data,
           "shutdown".data, "poweroff".data] }
      [] "kill 1".data = (false, none) :=
  ⟨by decide,
   not_dangerous_no_confirmation
     { dangerous_commands :=
         ["rm".data, "killall".data, "pkill".data, "systemctl stop".data,
          "systemctl disable".data, "systemctl mask".data, "reboot".data,
          "shutdown".data, "poweroff".data] }
     [] "kill 1".data rfl (by decide)⟩

/-! ## C7: word-boundary matching and strip-invariance

`is_dangerous_command` searches the *stripped* lowercased command; the claim
speaks of the lowercased command.  The two agree because stripped characters
are whitespace, hence non-word, and removing non-word characters at either
end never changes `\b`-delimited matching.  The lemmas below prove that
invariance. -/

/-- Whitespace characters are not word characters. -/
lemma pyWhitespace_not_wordChar {c : Char} (h : pyWhitespace c = true) :
    wordChar c = false := by
  unfold pyWhitespace at h
  simp only [Bool.or_eq_true, decide_eq_true_eq] at h
  rcases h with ((((h | h) | h) | h) | h) | h <;> subst h <;> decide

/-- Word-character lookup shifts across a cons. -/
lemma isWordAt_cons_succ (c : Char) (t : List Char) (j : Nat) :
    isWordAt (c :: t) (j + 1) = isWordAt t j := by
  unfold isWordAt
  rw [List.getElem?_cons_succ]

/-- A boundary after a leading non-word character shifts by one. -/
lemma boundaryAt_cons (c : Char) (t : List Char) (hw : wordChar c = false)
    (i : Nat) : boundaryAt (c :: t) (i + 1) = boundaryAt t i := by
  cases i with
  | zero =>
    simp [boundaryAt, isWordAt, List.getElem?_cons_zero,
      List.getElem?_cons_succ, hw]
  | succ j =>
    simp [boundaryAt, isWordAt, List.getElem?_cons_succ]

/-- Dropping a leading non-word character preserves word-bounded matching. -/
lemma wordBoundedIn_cons (d : List Char) (c : Char) (t : List Char)
    (hw : wordChar c = false) :
    wordBoundedIn d (c :: t) = wordBoundedIn d t := by
  rw [Bool.eq_iff_iff]
  unfold wordBoundedIn
  rw [List.any_eq_true, List.any_eq_true]
  constructor
  · rintro ⟨i, hi, hP⟩
    rw [List.mem_range] at hi
    cases i with
    | zero =>
      exfalso
      simp [matchesAt, boundaryAt, isWordAt, List.getElem?_cons_zero, hw]
        at hP
    | succ j =>
      refine ⟨j, ?_, ?_⟩
      · rw [List.mem_range]
        simp only [List.length_cons] at hi
        omega
      · have hm : matchesAt d (c :: t) (j + 1) = matchesAt d t j := by
          unfold matchesAt
          rw [List.drop_succ_cons]
        have he : j + 1 + d.length = (j + d.length) + 1 := by omega
        rw [hm, boundaryAt_cons c t hw j, he,
          boundaryAt_cons c t hw (j + d.length)] at hP
        exact hP
  · rintro ⟨j, hj, hP⟩
    rw [List.mem_range] at hj
    refine ⟨j + 1, ?_, ?_⟩
    · rw [List.mem_range]
      simp only [List.length_cons]
      omega
    · have hm : matchesAt d (c :: t) (j + 1) = matchesAt d t j := by
        unfold matchesAt
        rw [List.drop_succ_cons]
      have he : j + 1 + d.length = (j + d.length) + 1 := by omega
      rw [hm, boundaryAt_cons c t hw j, he,
        boundaryAt_cons c t hw (j + d.length)]
      exact hP

/-- Appending a non-word character changes no word-character lookup. -/
lemma isWordAt_concat (t : List Char) (c : Char) (hw : wordChar c = false)
    (j : Nat) : isWordAt (t ++ [c]) j = isWordAt t j := by
  induction t generalizing j with
  | nil =>
    cases j with
    | zero => simpa [isWordAt] using hw
    | succ k => simp [isWordAt]
  | cons a t' ih =>
    cases j with
    | zero =>
      rw [List.cons_append]
      unfold isWordAt
      rw [List.getElem?_cons_zero, List.getElem?_cons_zero]
    | succ k =>
      rw [List.cons_append]
      rw [isWordAt_cons_succ a (t' ++ [c]) k, isWordAt_cons_succ a t' k]
      exact ih k

/-- Appending a non-word character changes no boundary. -/
lemma boundaryAt_concat (t : List Char) (c : Char) (hw : wordChar c = false)
    (p : Nat) : boundaryAt (t ++ [c]) p = boundaryAt t p := by
  unfold boundaryAt
  rw [isWordAt_concat t c hw (p - 1), isWordAt_concat t c hw p]

/-- The boundary at the position right after an appended non-word character
is absent. -/
lemma boundaryAt_concat_end (t : List Char) (c : Char)
    (hw : wordChar c = false) :
    boundaryAt (t ++ [c]) (t.length + 1) = false := by
  have h1 : isWordAt (t ++ [c]) t.length = false := by
    unfold isWordAt
    rw [List.getElem?_concat_length t c]
    exact hw
  have h2 : isWordAt (t ++ [c]) (t.length + 1) = false := by
    unfold isWordAt
    rw [List.getElem?_eq_none (by simp)]
  simp [boundaryAt, h1, h2]

/-- A match fits inside the string it matches in. -/
lemma matchesAt_length_le (d s : List Char) (i : Nat)
    (h : matchesAt d s i = true) : d.length ≤ s.length - i := by
  unfold matchesAt at h
  rw [List.isPrefixOf_iff_prefix] at h
  have hl := h.length_le
  rwa [List.length_drop] at hl

/-- A match that fits inside `t` is unaffected by appending a character. -/
lemma matchesAt_concat (d t : List Char) (c : Char) (i : Nat)
    (h : i + d.length ≤ t.length) :
    matchesAt d (t ++ [c]) i = matchesAt d t i := by
  unfold matchesAt
  rw [Bool.eq_iff_iff, List.isPrefixOf_iff_prefix, List.isPrefixOf_iff_prefix]
  have hdrop : (t ++ [c]).drop i = t.drop i ++ [c] := by
    rw [List.drop_append_eq_append_drop]
    have hz : i - t.length = 0 := by omega
    rw [hz, List.drop_zero]
  rw [hdrop]
  constructor
  · intro hp
    rw [List.prefix_iff_eq_take] at hp ⊢
    have hlen : d.length ≤ (t.drop i).length := by
      rw [List.length_drop]
      omega
    rwa [List.take_append_of_le_length hlen] at hp
  · intro hp
    exact hp.trans (List.prefix_append _ _)

/-- Dropping a trailing non-word character preserves word-bounded
matching. -/
lemma wordBoundedIn_concat (d t : List Char) (c : Char)
    (hw : wordChar c = false) :
    wordBoundedIn d (t ++ [c]) = wordBoundedIn d t := by
  rw [Bool.eq_iff_iff]
  unfold wordBoundedIn
  rw [List.any_eq_true, List.any_eq_true]
  constructor
  · rintro ⟨i, hi, hP⟩
    rw [List.mem_range, List.length_append, List.length_singleton c] at hi
    rw [Bool.and_eq_true, Bool.and_eq_true] at hP
    obtain ⟨⟨hm, hb1⟩, hb2⟩ := hP
    by_cases hle : i + d.length ≤ t.length
    · refine ⟨i, ?_, ?_⟩
      · rw [List.mem_range]
        omega
      · rw [Bool.and_eq_true, Bool.and_eq_true]
        refine ⟨⟨?_, ?_⟩, ?_⟩
        · rwa [matchesAt_concat d t c i hle] at hm
        · rwa [boundaryAt_concat t c hw i] at hb1
        · rwa [boundaryAt_concat t c hw (i + d.length)] at hb2
    · exfalso
      have hlen := matchesAt_length_le d (t ++ [c]) i hm
      rw [List.length_append, List.length_singleton c] at hlen
      have hend : i + d.length = t.length + 1 := by omega
      rw [hend, boundaryAt_concat_end t c hw] at hb2
      exact Bool.false_ne_true hb2
  · rintro ⟨i, hi, hP⟩
    rw [List.mem_range] at hi
    rw [Bool.and_eq_true, Bool.and_eq_true] at hP
    obtain ⟨⟨hm, hb1⟩, hb2⟩ := hP
    have hle : i + d.length ≤ t.length := by
      have hlen := matchesAt_length_le d t i hm
      omega
    refine ⟨i, ?_, ?_⟩
    · rw [List.mem_range, List.length_append, List.length_singleton c]
      omega
    · rw [Bool.and_eq_true, Bool.and_eq_true]
      exact ⟨⟨by rwa [matchesAt_concat d t c i hle],
              by rwa [boundaryAt_concat t c hw i]⟩,
             by rwa [boundaryAt_concat t c hw (i + d.length)]⟩

/-- Stripping leading whitespace preserves word-bounded matching. -/
lemma wordBoundedIn_dropWhile (d s : List Char) :
    wordBoundedIn d (s.dropWhile pyWhitespace) = wordBoundedIn d s := by
  induction s with
  | nil => rfl
  | cons c t ih =>
    rw [List.dropWhile_cons]
    by_cases hc : pyWhitespace c = true
    · rw [if_pos hc, ih, wordBoundedIn_cons d c t (pyWhitespace_not_wordChar hc)]
    · rw [if_neg hc]

/-- Stripping trailing whitespace (via reverse) preserves word-bounded
matching. -/
lemma wordBoundedIn_dropWhile_reverse (d r : List Char) :
    wordBoundedIn d ((r.dropWhile pyWhitespace).reverse)
      = wordBoundedIn d r.reverse := by
  induction r with
  | nil => rfl
  | cons c t ih =>
    rw [List.dropWhile_cons]
    by_cases hc : pyWhitespace c = true
    · rw [if_pos hc, ih, List.reverse_cons,
        wordBoundedIn_concat d t.reverse c (pyWhitespace_not_wordChar hc)]
    · rw [if_neg hc]

/-- `str.strip()` never changes whether a `\b`-delimited literal matches. -/
lemma wordBoundedIn_pyStrip (d s : List Char) :
    wordBoundedIn d (pyStrip s) = wordBoundedIn d s := by
  unfold pyStrip
  rw [wordBoundedIn_dropWhile_reverse d ((s.dropWhile pyWhitespace).reverse),
    List.reverse_reverse]
  exact wordBoundedIn_dropWhile d s

/-- **C7.** `is_dangerous_command` is a pure function of policy and command
(it is a Lean function of exactly those two arguments) that returns `true`
iff some entry of the dangerous-command set occurs in the lowercased command
delimited by `\b` word boundaries; under the default policy, `rm -rf /` and
`systemctl stop nginx` are dangerous while `ls -la` and
`systemctl status nginx` are not. -/
theorem is_dangerous_command_iff (cfg : SafetyConfig) (command : List Char) :
    (is_dangerous_command cfg command = true ↔
      ∃ d ∈ cfg.dangerous_commands,
        wordBoundedIn d (pyLower command) = true) ∧
    is_dangerous_command {} "rm -rf /".data = true ∧
    is_dangerous_command {} "ls -la".data = false ∧
    is_dangerous_command {} "systemctl status nginx".data = false ∧
    is_dangerous_command {} "systemctl stop nginx".data = true := by
  refine ⟨?_, by decide, by decide, by decide, by decide⟩
  unfold is_dangerous_command
  rw [List.any_eq_true]
  constructor
  · rintro ⟨d, hd, hw⟩
    exact ⟨d, hd, by rwa [wordBoundedIn_pyStrip] at hw⟩
  · rintro ⟨d, hd, hw⟩
    exact ⟨d, hd, by rwa [wordBoundedIn_pyStrip]⟩

end TerminalBot
